import Mathlib

/-
Verification development for xmlbuilder3 (src/xmlbuilder3/__init__.py).

The library builds XML documents through attribute access.  Two classes:
`XMLNode` (tag, ordered child list `_childs`, attribute dict `_attrs`) and
`XMLBuilder` (arena of nodes plus a scope stack `_stack` of node references).
Serialization (`_toxml` / `tobytes` / `tostr`) walks the tree emitting
start/data/end events into a pluggable builder.

Embedding choices:
* Python runtime values that can reach the validation code are modelled by
  `PyVal`: strings, references to `XMLNode` objects (arena indices), and as a
  representative of "any other type" the integers, plus `None`.
* Python object identity is modelled with an arena: `XMLBuilder.nodes` is the
  list of all `XMLNode` objects ever created, and a node reference is an index
  into it.  `XMLBuilder.stack` holds such indices, mirroring `self._stack`.
* Python `dict` is modelled as an insertion-ordered association list with
  unique keys; `dict.update` replaces the value in place for an existing key
  and appends new keys at the end, which is exactly CPython's behaviour.
* A Python method that mutates `self` and can raise is modelled as a function
  returning the updated object paired with `Option PyError`: mutations
  performed before the raise survive, exactly as in Python.
* External collaborators (`xml.etree.ElementTree.tostring`, the pluggable
  builder, `xml.dom.minidom` pretty-printing, byte encodings) are out of
  scope per the code's imports; functions that use them take them as explicit
  function parameters, universally quantified in the theorems.
-/

/-- A Python value as far as xmlbuilder3's validation code can distinguish
them: a `str`, an `XMLNode` (modelled as an index into the document's node
arena), `None`, or some other object (represented by `int`, the example the
spec uses for an invalid positional argument). -/
inductive PyVal where
  | str (s : String)
  | nodeRef (id : Nat)
  | int (n : Int)
  | pynone
  deriving DecidableEq, Repr

/-- Exceptions raised by the code (all `ValueError` with distinct messages in
the source, plus the exceptions Python itself raises). -/
inductive PyError where
  /-- ValueError "Non-named arguments should be string or XMLNode, not ..." -/
  | invalidArgumentType
  /-- ValueError "Attribute values should be string only, not ..." -/
  | invalidAttributeValue
  /-- ValueError "Attribute names should be string only, not ..." -/
  | invalidAttributeName
  /-- Python `AttributeError`, raised for `_ipython_`-prefixed probe names. -/
  | attributeError (name : String)
  /-- Python `IndexError`, raised by `list.pop()` / `list[-1]` / `list[0]` on an
  empty list. -/
  | indexError
  /-- Python `TypeError`, raised when subscripting an object whose class defines no
  `__getitem__`/`__setitem__`. -/
  | typeError
  deriving DecidableEq, Repr

/-- Python `isinstance(v, (str, XMLNode))` — the positional-argument test. -/
def isStrOrNode : PyVal → Bool
  | .str _ => true
  | .nodeRef _ => true
  | _ => false

/-- Python `isinstance(v, str)`. -/
def isStr : PyVal → Bool
  | .str _ => true
  | _ => false

/-- One XML element: `self._tag`, `self._childs`, `self._attrs`.
`childs` stores the positional arguments exactly as given (strings or node
references); `attrs` is the attribute dict, an insertion-ordered association
list with unique keys.  The `_document` weakref back-pointer is not a field
here because the embedding has a single document whose state every
document-level operation threads explicitly. -/
structure XMLNode where
  tag : String
  childs : List PyVal
  attrs : List (PyVal × PyVal)
  deriving DecidableEq, Repr

/-- Python `d[k] = v` on a Python dict: replace the value in place if `k` is
present, else append the pair at the end. -/
def dict_set : List (PyVal × PyVal) → PyVal → PyVal → List (PyVal × PyVal)
  | [], k, v => [(k, v)]
  | (k', v') :: rest, k, v =>
    if k' = k then (k', v) :: rest else (k', v') :: dict_set rest k v

/-- Python `d.update(kvs)` on a Python dict: set each pair in order. -/
def dict_update (d : List (PyVal × PyVal)) (kvs : List (PyVal × PyVal)) :
    List (PyVal × PyVal) :=
  kvs.foldl (fun acc kv => dict_set acc kv.1 kv.2) d

/-- Python `d.get(k)` on a Python dict (first — and only — entry with that key). -/
def dict_get? : List (PyVal × PyVal) → PyVal → Option PyVal
  | [], _ => none
  | (k', v') :: rest, k => if k' = k then some v' else dict_get? rest k

/-- The first `for` loop of `_xml_update`: scan the positional arguments and
raise `ValueError` at the first one that is neither `str` nor `XMLNode`. -/
def validate_args : List PyVal → Option PyError
  | [] => none
  | a :: rest =>
    if isStrOrNode a then validate_args rest else some .invalidArgumentType

/-- The second `for` loop of `_xml_update`: for each `key, val` pair, check
`val` is a `str` first, then `key`, raising at the first failure. -/
def validate_kwargs : List (PyVal × PyVal) → Option PyError
  | [] => none
  | (k, v) :: rest =>
    if ¬ isStr v then some .invalidAttributeValue
    else if ¬ isStr k then some .invalidAttributeName
    else validate_kwargs rest

/-- Method `XMLNode._xml_update(args, kwargs)`.  Mirrors the source order exactly:
validate all positional arguments, then `self._childs.extend(args)`, then
validate all keyword pairs, then `self._attrs.update(kwargs)`.  A raise after
the `extend` leaves the extension in place. -/
def xml_update (n : XMLNode) (args : List PyVal) (kwargs : List (PyVal × PyVal)) :
    XMLNode × Option PyError :=
  match validate_args args with
  | some e => (n, some e)
  | none =>
    let n1 := { n with childs := n.childs ++ args }
    match validate_kwargs kwargs with
    | some e => (n1, some e)
    | none => ({ n1 with attrs := dict_update n1.attrs kwargs }, none)

/-- Constructor `XMLNode.__init__(doc, tag, *args, **kwargs)`: fresh empty fields, then
`_xml_update`.  If `_xml_update` raises, the exception propagates out of the
constructor. -/
def xmlnode_init (tag : String) (args : List PyVal)
    (kwargs : List (PyVal × PyVal)) : XMLNode × Option PyError :=
  xml_update { tag := tag, childs := [], attrs := [] } args kwargs

/-- Method `XMLNode.__setitem__(name, val)`: `self._xml_update((), {name: val})`. -/
def xmlnode_setitem (n : XMLNode) (name val : PyVal) : XMLNode × Option PyError :=
  xml_update n [] [(name, val)]

/-- Method `XMLNode.__call__(*args, **kwargs)`: `self._xml_update(args, kwargs)`,
returning `self`. -/
def xmlnode_call (n : XMLNode) (args : List PyVal)
    (kwargs : List (PyVal × PyVal)) : XMLNode × Option PyError :=
  xml_update n args kwargs

/-- Method `XMLNode.__lshift__(val)`: `self._xml_update((val,), {})`. -/
def xmlnode_lshift (n : XMLNode) (val : PyVal) : XMLNode × Option PyError :=
  xml_update n [val] []

example : xmlnode_init "t" [.str "kid"] [(.str "a", .int 1)] =
    ({ tag := "t", childs := [.str "kid"], attrs := [] },
     some .invalidAttributeValue) := by decide

example : xmlnode_init "t" [.str "kid"] [(.str "a", .str "1"), (.str "a", .str "2")] =
    ({ tag := "t", childs := [.str "kid"], attrs := [(.str "a", .str "2")] },
     none) := by decide

example : xmlnode_init "t" [.int 7, .str "kid"] [] =
    ({ tag := "t", childs := [], attrs := [] }, some .invalidArgumentType) := by
  decide

/-- The `XMLBuilder` document: the arena `nodes` of every `XMLNode` object
created so far (a node reference is an index into it) and `self._stack`, the
list of open-scope node references.  `nodes.head?` position `stack[0]` is the
root after construction. -/
structure XMLBuilder where
  nodes : List XMLNode
  stack : List Nat
  deriving DecidableEq, Repr

/-- Constructor `XMLBuilder.__init__(root_name, *args, **kwargs)`: build the root node
(construction errors propagate) and initialise the stack to `[root]`. -/
def xmlbuilder_init (root_name : String) (args : List PyVal)
    (kwargs : List (PyVal × PyVal)) : Except PyError XMLBuilder :=
  match xmlnode_init root_name args kwargs with
  | (_, some e) => .error e
  | (root, none) => .ok { nodes := [root], stack := [0] }

/-- Python `name.startswith(pre)`, computed on the character sequences. -/
def py_startswith (s pre : String) : Bool :=
  pre.data.isPrefixOf s.data

/-- Method `XMLNode.__getattr__(name)` of the node `selfId` in document `b`: raise
`AttributeError` for `_ipython_`-prefixed probe names; otherwise allocate a
fresh empty `XMLNode(name)`, append a reference to it to `self._childs`, and
return the new node's reference.  (Python only calls `__getattr__` for names
not found by normal lookup, i.e. dynamic accesses.) -/
def node_getattr (b : XMLBuilder) (selfId : Nat) (name : String) :
    XMLBuilder × Except PyError Nat :=
  if py_startswith name "_ipython_" then (b, .error (.attributeError name))
  else
    let newId := b.nodes.length
    let nodes1 := b.nodes ++ [{ tag := name, childs := [], attrs := [] }]
    match b.nodes[selfId]? with
    | none => ({ b with nodes := nodes1 }, .ok newId)
    | some selfNode =>
      let selfNode' := { selfNode with childs := selfNode.childs ++ [.nodeRef newId] }
      ({ b with nodes := nodes1.set selfId selfNode' }, .ok newId)

/-- An `_xml_update`-style call on the node `id` inside the document arena
(used for `node(...)`, `node[k] = v`, `node << v` on a node obtained from
dynamic access): mutate that arena slot, propagating the error. -/
def arena_call (b : XMLBuilder) (id : Nat) (args : List PyVal)
    (kwargs : List (PyVal × PyVal)) : XMLBuilder × Option PyError :=
  match b.nodes[id]? with
  | none => (b, none)
  | some n =>
    let (n', err) := xml_update n args kwargs
    ({ b with nodes := b.nodes.set id n' }, err)

/-- Method `XMLBuilder.__call__(obj)`: with `None`, `self._stack.pop()` (an
`IndexError` on an empty stack, otherwise drop the last entry
unconditionally); with a node, `self._stack.append(obj)`.  Returns `self`. -/
def builder_call (b : XMLBuilder) (obj : Option Nat) : XMLBuilder × Option PyError :=
  match obj with
  | none =>
    if b.stack.isEmpty then (b, some .indexError)
    else ({ b with stack := b.stack.dropLast }, none)
  | some id => ({ b with stack := b.stack ++ [id] }, none)

/-- Method `XMLNode.__enter__` of node `selfId`: `self._document()(self)` — push the
node onto the document's stack (never raises). -/
def node_enter (b : XMLBuilder) (selfId : Nat) : XMLBuilder :=
  (builder_call b (some selfId)).1

/-- Method `XMLNode.__exit__`: `self._document()(None)` — pop the stack top. -/
def node_exit (b : XMLBuilder) : XMLBuilder × Option PyError :=
  builder_call b none

/-- Method `XMLBuilder.__getattr__(name)`: the `_ipython_` probe check, then
`getattr(self._stack[-1], name)` — forward the dynamic access to the
top-of-stack node (`IndexError` if the stack is empty). -/
def builder_getattr (b : XMLBuilder) (name : String) :
    XMLBuilder × Except PyError Nat :=
  if py_startswith name "_ipython_" then (b, .error (.attributeError name))
  else
    match b.stack.getLast? with
    | none => (b, .error .indexError)
    | some topId => node_getattr b topId name

/-- Method `XMLBuilder.__getitem__` does not exist: the class defines no
`__getitem__`, so `doc[key]` raises `TypeError` ("'XMLBuilder' object is not
subscriptable") whatever the key. -/
def builder_getitem (_b : XMLBuilder) (_key : PyVal) : Except PyError PyVal :=
  .error .typeError

/-- Method `XMLBuilder.__setitem__` does not exist either: `doc[key] = v` raises
`TypeError` and changes nothing. -/
def builder_setitem (b : XMLBuilder) (_key _val : PyVal) :
    XMLBuilder × Option PyError :=
  (b, some .typeError)

/-- One event emitted to the tree-builder collaborator: `builder.start(tag,
attrs)`, `builder.data(text)`, or `builder.end(tag)`. -/
inductive Event where
  | start (tag : String) (attrs : List (PyVal × PyVal))
  | data (s : String)
  | close (tag : String)
  deriving DecidableEq, Repr

/-- The child loop of `XMLNode._toxml`, with the whole-node rendering of a
referenced child inlined (fuel bounds the recursion depth; `none` means the
walk did not finish — fuel exhausted, a dangling reference, or a non-`str`
non-node child, on which Python's `child._toxml` would raise).  A `str` child
becomes `builder.data`; an `XMLNode` child contributes
`start tag attrs / its own children / end tag`. -/
def childs_toxml : Nat → List XMLNode → List PyVal → Option (List Event)
  | _, _, [] => some []
  | fuel, nodes, PyVal.str s :: rest =>
    (childs_toxml fuel nodes rest).map (fun r => Event.data s :: r)
  | fuel, nodes, PyVal.nodeRef id :: rest =>
    match fuel, nodes[id]? with
    | 0, _ => none
    | _, none => none
    | fuel' + 1, some child =>
      match childs_toxml fuel' nodes child.childs with
      | none => none
      | some evs =>
        match childs_toxml (fuel' + 1) nodes rest with
        | none => none
        | some r =>
          some ((Event.start child.tag child.attrs :: (evs ++ [Event.close child.tag])) ++ r)
  | _, _, PyVal.int _ :: _ => none
  | _, _, PyVal.pynone :: _ => none
  termination_by fuel _ cs => (fuel, cs.length)

/-- Method `XMLNode._toxml(builder)`: `builder.start(self._tag, self._attrs)`, then
the child loop, then `builder.end(self._tag)`. -/
def node_toxml (fuel : Nat) (nodes : List XMLNode) (n : XMLNode) :
    Option (List Event) :=
  (childs_toxml fuel nodes n.childs).map
    (fun evs => Event.start n.tag n.attrs :: (evs ++ [Event.close n.tag]))

/-- Rendering the node with reference `id`. -/
def toxml (fuel : Nat) (nodes : List XMLNode) (id : Nat) : Option (List Event) :=
  match nodes[id]? with
  | none => none
  | some n => node_toxml fuel nodes n

example :
    node_toxml 5 [{ tag := "b", childs := [.str "x"], attrs := [] }]
      { tag := "a", childs := [.str "t", .nodeRef 0], attrs := [(.str "k", .str "v")] } =
    some [.start "a" [(.str "k", .str "v")], .data "t",
          .start "b" [], .data "x", .close "b", .close "a"] := by
  simp [node_toxml, childs_toxml]

/-- Function `tobytes(doc, encoding, builder_cls, pretty)`.  The external
collaborators are passed in as functions: `et_tostring` stands for the
composition of the pluggable builder (which consumes the start/data/end
events and is closed into a tree) with `xml.etree.ElementTree.tostring`;
`minidom_pretty` stands for `xml.dom.minidom.parseString(...).toprettyxml()`;
`enc`/`dec` stand for `str.encode`/`bytes.decode` at a given encoding, bytes
being `List Nat`.  The source reads `doc._stack[0]` (an `IndexError` on an
empty stack) and renders from there; the pretty branch decodes, reformats and
re-encodes with the same encoding.  `none` stands for a raised exception.
The returned `XMLBuilder` is the document after the call: the body contains
no assignment to any node or to the stack, so it is returned as received. -/
def tobytes_m (et_tostring : List Event → String → List Nat)
    (minidom_pretty : String → String)
    (enc : String → String → List Nat) (dec : String → List Nat → String)
    (doc : XMLBuilder) (encoding : String) (pretty : Bool) (fuel : Nat) :
    XMLBuilder × Option (List Nat) :=
  match doc.stack.head? with
  | none => (doc, none)
  | some rootId =>
    match toxml fuel doc.nodes rootId with
    | none => (doc, none)
    | some events =>
      let res := et_tostring events encoding
      if pretty then (doc, some (enc encoding (minidom_pretty (dec encoding res))))
      else (doc, some res)

/-- Function `tostr(doc, encoding, *args, **kwargs)`:
`tobytes(doc, encoding, *args, **kwargs).decode(encoding)` — the same
`encoding` value is forwarded to `tobytes` and used for the final decode; a
raise inside `tobytes` propagates. -/
def tostr_m (et_tostring : List Event → String → List Nat)
    (minidom_pretty : String → String)
    (enc : String → String → List Nat) (dec : String → List Nat → String)
    (doc : XMLBuilder) (encoding : String) (pretty : Bool) (fuel : Nat) :
    Option String :=
  ((tobytes_m et_tostring minidom_pretty enc dec doc encoding pretty fuel).2).map
    (dec encoding)

/-- Last value written for key `q` in the keyword list (specification-side
helper used to state last-write-wins). -/
def last_value? : List (PyVal × PyVal) → PyVal → Option PyVal
  | [], _ => none
  | (k, v) :: rest, q =>
    match last_value? rest q with
    | some w => some w
    | none => if k = q then some v else none



example : py_startswith "foo" "_ipython_" = false := by decide

example : py_startswith "_ipython_canary" "_ipython_" = true := by decide

/-- A positional-argument list scans clean exactly when each entry is a
string or a node. -/
theorem validate_args_eq_none_iff (args : List PyVal) :
    validate_args args = none ↔ ∀ a ∈ args, isStrOrNode a = true := by
  induction args with
  | nil => simp [validate_args]
  | cons a rest ih =>
    by_cases h : isStrOrNode a <;> simp [validate_args, h, ih]

/-- A bad positional argument makes the first loop raise
`invalidArgumentType` (the only error it can raise). -/
theorem validate_args_eq_some_of_bad (args : List PyVal)
    (h : ∃ a ∈ args, isStrOrNode a = false) :
    validate_args args = some PyError.invalidArgumentType := by
  induction args with
  | nil => simp at h
  | cons a rest ih =>
    rcases h with ⟨x, hx, hbad⟩
    rcases List.mem_cons.mp hx with rfl | hrest
    · simp [validate_args, hbad]
    · by_cases ha : isStrOrNode a <;> simp [validate_args, ha]
      exact ih ⟨x, hrest, hbad⟩

/-- The keyword loop never raises the positional-argument error. -/
theorem validate_kwargs_ne_argtype (kwargs : List (PyVal × PyVal)) :
    validate_kwargs kwargs ≠ some PyError.invalidArgumentType := by
  induction kwargs with
  | nil => simp [validate_kwargs]
  | cons kv rest ih =>
    obtain ⟨k, v⟩ := kv
    by_cases hv : isStr v <;> by_cases hk : isStr k <;>
      simp [validate_kwargs, hv, hk, ih]

/-- All-string keyword pairs scan clean. -/
theorem validate_kwargs_eq_none (kwargs : List (PyVal × PyVal))
    (h : ∀ kv ∈ kwargs, isStr kv.1 = true ∧ isStr kv.2 = true) :
    validate_kwargs kwargs = none := by
  induction kwargs with
  | nil => simp [validate_kwargs]
  | cons kv rest ih =>
    obtain ⟨k, v⟩ := kv
    have hk := (h (k, v) (List.mem_cons_self _ _)).1
    have hv := (h (k, v) (List.mem_cons_self _ _)).2
    simp [validate_kwargs, hk, hv]
    exact ih fun kv hkv => h kv (List.mem_cons_of_mem _ hkv)

/-- C1 counterexample: a call mixing one valid positional child with one
invalid attribute value raises, yet the children list has changed from `[]`
to `["kid"]` — the mutation is not the no-op the claim demands. -/
theorem C1_counterexample :
    (xml_update { tag := "t", childs := [], attrs := [] } [PyVal.str "kid"]
        [(PyVal.str "a", PyVal.int 1)]).2 = some PyError.invalidAttributeValue ∧
    (xml_update { tag := "t", childs := [], attrs := [] } [PyVal.str "kid"]
        [(PyVal.str "a", PyVal.int 1)]).1.childs ≠
      XMLNode.childs { tag := "t", childs := [], attrs := [] } := by
  decide

/-- C1 (amended): a failing mutation call leaves the attribute mapping
unchanged, and leaves the children list unchanged when a positional argument
is invalid; but when every positional argument is valid and a keyword pair is
invalid, the positional children have already been appended when the call
raises. -/
theorem C1_failed_update_partial_mutation (n : XMLNode) (args : List PyVal)
    (kwargs : List (PyVal × PyVal))
    (h : ((xml_update n args kwargs).2).isSome = true) :
    (xml_update n args kwargs).1.attrs = n.attrs ∧
    (validate_args args ≠ none → (xml_update n args kwargs).1 = n) ∧
    (validate_args args = none →
      (xml_update n args kwargs).1.childs = n.childs ++ args) := by
  cases hva : validate_args args with
  | some e => simp [xml_update, hva]
  | none =>
    cases hvk : validate_kwargs kwargs with
    | some e => simp [xml_update, hva, hvk]
    | none => simp [xml_update, hva, hvk] at h

/-- C1 witness: the amended theorem applied at the counterexample input. -/
theorem C1_failed_update_partial_mutation_witness :
    (xml_update { tag := "t", childs := [], attrs := [] } [PyVal.str "kid"]
        [(PyVal.str "a", PyVal.int 1)]).1.attrs = [] ∧
    (xml_update { tag := "t", childs := [], attrs := [] } [PyVal.str "kid"]
        [(PyVal.str "a", PyVal.int 1)]).1.childs = [] ++ [PyVal.str "kid"] :=
  ⟨(C1_failed_update_partial_mutation _ _ _ (by decide)).1,
   (C1_failed_update_partial_mutation _ _ _ (by decide)).2.2 (by decide)⟩

/-- A freshly constructed document `XMLBuilder("root")`: one root node, the
stack holding exactly the root. -/
def rootOnlyDoc : XMLBuilder :=
  { nodes := [{ tag := "root", childs := [], attrs := [] }], stack := [0] }

example : xmlbuilder_init "root" [] [] = Except.ok rootOnlyDoc := rfl

/-- C2 counterexample: with only the root on the stack, calling the document
with `None` raises nothing and leaves the stack empty — there is no
`ScopeUnderflow` fail-fast. -/
theorem C2_counterexample :
    (builder_call rootOnlyDoc none).2 = none ∧
    (builder_call rootOnlyDoc none).1.stack = [] := by
  decide

/-- C2 (amended): `XMLBuilder.__call__(None)` pops unconditionally — when the
stack holds only the root it succeeds (no error) and leaves the stack
empty. -/
theorem C2_pop_root_leaves_empty_stack (b : XMLBuilder) (r : Nat)
    (h : b.stack = [r]) :
    builder_call b none = ({ b with stack := [] }, none) := by
  simp [builder_call, h]

/-- C2 witness: the amended theorem at a one-node document. -/
theorem C2_pop_root_leaves_empty_stack_witness :
    builder_call rootOnlyDoc none = ({ rootOnlyDoc with stack := [] }, none) :=
  C2_pop_root_leaves_empty_stack _ 0 rfl

/-- C5: the document exposes no indexed configuration surface at all —
`XMLBuilder` defines neither `__getitem__` nor `__setitem__`, so reading or
writing `doc[option]` raises `TypeError` for every key, instead of exposing
`formatted`/`tabstep`/`encoding`/`xml_header`/`builder` options. -/
theorem C5_no_indexed_config_surface (b : XMLBuilder) (key val : PyVal) :
    builder_getitem b key = Except.error PyError.typeError ∧
    builder_setitem b key val = (b, some PyError.typeError) :=
  ⟨rfl, rfl⟩

/-- C9: indexed attribute assignment with a non-string attribute name raises
(whatever the value is) and leaves the attribute mapping — and the children —
unchanged. -/
theorem C9_setitem_nonstring_name (n : XMLNode) (name val : PyVal)
    (hname : isStr name = false) :
    ((xmlnode_setitem n name val).2).isSome = true ∧
    (xmlnode_setitem n name val).1.attrs = n.attrs ∧
    (xmlnode_setitem n name val).1.childs = n.childs := by
  cases hv : isStr val <;>
    simp [xmlnode_setitem, xml_update, validate_args, validate_kwargs, hv, hname]

/-- A sample populated node, one text child, one attribute. -/
def sampleNode : XMLNode :=
  { tag := "t", childs := [PyVal.str "c"], attrs := [(PyVal.str "a", PyVal.str "b")] }

/-- C9 witness: assigning through an integer attribute name on a node with
one child and one attribute. -/
theorem C9_setitem_nonstring_name_witness :
    ((xmlnode_setitem sampleNode (PyVal.int 5) (PyVal.str "x")).2).isSome = true ∧
    (xmlnode_setitem sampleNode (PyVal.int 5) (PyVal.str "x")).1.attrs =
      [(PyVal.str "a", PyVal.str "b")] :=
  ⟨(C9_setitem_nonstring_name _ _ _ (by decide)).1,
   (C9_setitem_nonstring_name _ _ _ (by decide)).2.1⟩

/-- C8: both for call-style invocation and for construction, a positional
argument that is neither a string nor a node makes the call raise
`invalidArgumentType` with the children list untouched (for a constructor the
fresh node still has no children when the exception propagates); and when all
positional arguments are strings or nodes the call never raises that
error. -/
theorem C8_positional_argument_validation (n : XMLNode) (tag : String)
    (args : List PyVal) (kwargs : List (PyVal × PyVal)) :
    ((∃ a ∈ args, isStrOrNode a = false) →
      xmlnode_call n args kwargs = (n, some PyError.invalidArgumentType) ∧
      (xmlnode_init tag args kwargs).2 = some PyError.invalidArgumentType ∧
      (xmlnode_init tag args kwargs).1.childs = []) ∧
    ((∀ a ∈ args, isStrOrNode a = true) →
      (xmlnode_call n args kwargs).2 ≠ some PyError.invalidArgumentType ∧
      (xmlnode_init tag args kwargs).2 ≠ some PyError.invalidArgumentType) := by
  constructor
  · intro h
    have hva := validate_args_eq_some_of_bad args h
    simp [xmlnode_call, xmlnode_init, xml_update, hva]
  · intro h
    have hva := (validate_args_eq_none_iff args).mpr h
    cases hvk : validate_kwargs kwargs with
    | some e =>
      have hne := validate_kwargs_ne_argtype kwargs
      rw [hvk] at hne
      simp [xmlnode_call, xmlnode_init, xml_update, hva, hvk]
      exact fun hc => hne (by rw [hc])
    | none => simp [xmlnode_call, xmlnode_init, xml_update, hva, hvk]

/-- C8 witness: an integer positional argument raises and mutates nothing; a
string positional argument does not raise `invalidArgumentType`. -/
theorem C8_positional_argument_validation_witness :
    xmlnode_call sampleNode [PyVal.int 3] [] =
      (sampleNode, some PyError.invalidArgumentType) ∧
    (xmlnode_call sampleNode [PyVal.str "x"] []).2 ≠
      some PyError.invalidArgumentType :=
  ⟨((C8_positional_argument_validation sampleNode "t" [PyVal.int 3] []).1
      (by decide)).1,
   ((C8_positional_argument_validation sampleNode "t" [PyVal.str "x"] []).2
      (by decide)).1⟩

/-- C7: serialization is read-only — `tobytes` returns the document exactly
as received (every node's tag, children and attributes, and the stack, are
unchanged), and rendering the document it returns again, with the same
options, yields the same output. -/
theorem C7_render_is_readonly (ets : List Event → String → List Nat)
    (mp : String → String) (enc : String → String → List Nat)
    (dec : String → List Nat → String) (doc : XMLBuilder) (encoding : String)
    (pretty : Bool) (fuel : Nat) :
    (tobytes_m ets mp enc dec doc encoding pretty fuel).1 = doc ∧
    tobytes_m ets mp enc dec (tobytes_m ets mp enc dec doc encoding pretty fuel).1
        encoding pretty fuel =
      tobytes_m ets mp enc dec doc encoding pretty fuel := by
  have h1 : (tobytes_m ets mp enc dec doc encoding pretty fuel).1 = doc := by
    unfold tobytes_m
    cases hh : doc.stack.head? with
    | none => simp [hh]
    | some rootId =>
      cases ht : toxml fuel doc.nodes rootId with
      | none => simp [hh, ht]
      | some evs => cases pretty <;> simp [hh, ht]
  refine ⟨h1, ?_⟩
  rw [h1]

/-- C10: the text-returning serialization is the byte-returning serialization
decoded with the same encoding — pointwise: when `tobytes` produces bytes,
`tostr` produces exactly their decoding, and when `tobytes` raises, `tostr`
propagates the exception. -/
theorem C10_tostr_is_decoded_tobytes (ets : List Event → String → List Nat)
    (mp : String → String) (enc : String → String → List Nat)
    (dec : String → List Nat → String) (doc : XMLBuilder) (encoding : String)
    (pretty : Bool) (fuel : Nat) :
    (∀ bs, (tobytes_m ets mp enc dec doc encoding pretty fuel).2 = some bs →
      tostr_m ets mp enc dec doc encoding pretty fuel =
        some (dec encoding bs)) ∧
    ((tobytes_m ets mp enc dec doc encoding pretty fuel).2 = none →
      tostr_m ets mp enc dec doc encoding pretty fuel = none) := by
  constructor
  · intro bs h
    simp [tostr_m, h]
  · intro h
    simp [tostr_m, h]

/-- C10 witness: the empty-root document rendered through trivial external
collaborators. -/
theorem C10_tostr_is_decoded_tobytes_witness :
    tostr_m (fun _ _ => []) (fun s => s) (fun _ _ => []) (fun _ _ => "")
      rootOnlyDoc "utf8" false 1 = some "" :=
  (C10_tostr_is_decoded_tobytes (fun _ _ => []) (fun s => s) (fun _ _ => [])
      (fun _ _ => "") rootOnlyDoc "utf8" false 1).1 []
    (by simp [tobytes_m, rootOnlyDoc, toxml, node_toxml, childs_toxml])

/-- C6: entering a node's scope then exiting restores the document exactly
(stack contents, length and top identity); this composes for nested scopes
(enter A, enter B, exit, exit is the original document); and while a scope is
open, dynamic attribute access on the document is forwarded to the innermost
open node (B while B is open, A after B is closed). -/
theorem C6_scope_enter_exit (b : XMLBuilder) (idA idB : Nat) (name : String)
    (hname : py_startswith name "_ipython_" = false) :
    node_exit (node_enter b idA) = (b, none) ∧
    node_exit (node_enter (node_enter b idA) idB) = (node_enter b idA, none) ∧
    (node_exit (node_exit (node_enter (node_enter b idA) idB)).1).1 = b ∧
    (node_enter b idA).stack.getLast? = some idA ∧
    (node_enter (node_enter b idA) idB).stack.getLast? = some idB ∧
    builder_getattr (node_enter (node_enter b idA) idB) name =
      node_getattr (node_enter (node_enter b idA) idB) idB name ∧
    builder_getattr (node_enter b idA) name = node_getattr (node_enter b idA) idA name := by
  have key : ∀ (d : XMLBuilder) (i : Nat), node_exit (node_enter d i) = (d, none) := by
    intro d i
    simp [node_enter, node_exit, builder_call]
  refine ⟨key b idA, key _ idB, ?_, ?_, ?_, ?_, ?_⟩
  · rw [key _ idB]
    simp only []
    rw [key b idA]
  · simp [node_enter, builder_call]
  · simp [node_enter, builder_call]
  · simp [builder_getattr, node_enter, builder_call, hname]
  · simp [builder_getattr, node_enter, builder_call, hname]

/-- C6 witness: enter/exit round-trip and innermost targeting on a concrete
document. -/
theorem C6_scope_enter_exit_witness :
    node_exit (node_enter rootOnlyDoc 1) = (rootOnlyDoc, none) ∧
    builder_getattr (node_enter rootOnlyDoc 1) "foo" =
      node_getattr (node_enter rootOnlyDoc 1) 1 "foo" :=
  ⟨(C6_scope_enter_exit rootOnlyDoc 1 2 "foo" (by decide)).1,
   (C6_scope_enter_exit rootOnlyDoc 1 2 "foo" (by decide)).2.2.2.2.2.2⟩

/-- Explicit form of one dynamic access: with a non-probe name and a valid
self reference, `__getattr__` allocates the fresh empty node at the end of
the arena and appends a reference to it to `self._childs`. -/
theorem node_getattr_spec (b : XMLBuilder) (selfId : Nat) (name : String)
    (n : XMLNode) (hname : py_startswith name "_ipython_" = false)
    (hself : b.nodes[selfId]? = some n) :
    node_getattr b selfId name =
      (XMLBuilder.mk
        ((b.nodes ++ [XMLNode.mk name [] []]).set selfId
          (XMLNode.mk n.tag (n.childs ++ [PyVal.nodeRef b.nodes.length]) n.attrs))
        b.stack,
       Except.ok b.nodes.length) := by
  simp [node_getattr, hname, hself]

/-- C3: a dynamic attribute access with a non-reserved name creates a
brand-new empty node with that tag and appends it to the children list; a
second access with the same name creates a second, distinct sibling (no
memoization), the parent's children ending with the two new references in
order; and the two siblings are independently mutable — a call-style update
of either leaves the other exactly the fresh empty node. -/
theorem C3_getattr_no_memoization (b : XMLBuilder) (selfId : Nat)
    (name : String) (n : XMLNode)
    (hname : py_startswith name "_ipython_" = false)
    (hself : b.nodes[selfId]? = some n) :
    (node_getattr b selfId name).2 = Except.ok b.nodes.length ∧
    ((node_getattr b selfId name).1.nodes)[b.nodes.length]? =
      some (XMLNode.mk name [] []) ∧
    ((node_getattr b selfId name).1.nodes)[selfId]? =
      some (XMLNode.mk n.tag (n.childs ++ [PyVal.nodeRef b.nodes.length]) n.attrs) ∧
    (node_getattr (node_getattr b selfId name).1 selfId name).2 =
      Except.ok (b.nodes.length + 1) ∧
    b.nodes.length + 1 ≠ b.nodes.length ∧
    ((node_getattr (node_getattr b selfId name).1 selfId name).1.nodes)[selfId]? =
      some (XMLNode.mk n.tag
        (n.childs ++
          [PyVal.nodeRef b.nodes.length, PyVal.nodeRef (b.nodes.length + 1)])
        n.attrs) ∧
    ((node_getattr (node_getattr b selfId name).1 selfId name).1.nodes)[b.nodes.length]? =
      some (XMLNode.mk name [] []) ∧
    ((node_getattr (node_getattr b selfId name).1 selfId name).1.nodes)[b.nodes.length + 1]? =
      some (XMLNode.mk name [] []) ∧
    (∀ args kwargs,
      ((arena_call (node_getattr (node_getattr b selfId name).1 selfId name).1
          b.nodes.length args kwargs).1.nodes)[b.nodes.length + 1]? =
        some (XMLNode.mk name [] []) ∧
      ((arena_call (node_getattr (node_getattr b selfId name).1 selfId name).1
          (b.nodes.length + 1) args kwargs).1.nodes)[b.nodes.length]? =
        some (XMLNode.mk name [] [])) := by
  have hlt : selfId < b.nodes.length := by
    rcases List.getElem?_eq_some.mp hself with ⟨h, _⟩
    exact h
  have hne : selfId ≠ b.nodes.length := Nat.ne_of_lt hlt
  have hne1 : selfId ≠ b.nodes.length + 1 := Nat.ne_of_lt (Nat.lt_succ_of_lt hlt)
  have h1 := node_getattr_spec b selfId name n hname hself
  rw [h1]
  have hb1self :
      ((b.nodes ++ [XMLNode.mk name [] []]).set selfId
        (XMLNode.mk n.tag (n.childs ++ [PyVal.nodeRef b.nodes.length]) n.attrs))[selfId]? =
      some (XMLNode.mk n.tag (n.childs ++ [PyVal.nodeRef b.nodes.length]) n.attrs) := by
    apply List.getElem?_set_eq_of_lt
    simp
    omega
  have h2 := node_getattr_spec
    (XMLBuilder.mk
      ((b.nodes ++ [XMLNode.mk name [] []]).set selfId
        (XMLNode.mk n.tag (n.childs ++ [PyVal.nodeRef b.nodes.length]) n.attrs))
      b.stack)
    selfId name
    (XMLNode.mk n.tag (n.childs ++ [PyVal.nodeRef b.nodes.length]) n.attrs)
    hname hb1self
  simp only [List.length_set, List.length_append, List.length_singleton] at h2
  rw [h2]
  have hget1 :
      ((b.nodes ++ [XMLNode.mk name [] []]).set selfId
        (XMLNode.mk n.tag (n.childs ++ [PyVal.nodeRef b.nodes.length]) n.attrs))[b.nodes.length]? =
      some (XMLNode.mk name [] []) := by
    rw [List.getElem?_set_ne hne, List.getElem?_append_right (Nat.le_refl _)]
    simp
  set len := b.nodes.length with hlenDef
  set N := XMLNode.mk name [] [] with hN
  set n1 := XMLNode.mk n.tag (n.childs ++ [PyVal.nodeRef len]) n.attrs with hn1
  set B := (b.nodes ++ [N]).set selfId n1 with hB
  set n2 := XMLNode.mk n.tag (n.childs ++ [PyVal.nodeRef len] ++ [PyVal.nodeRef (len + 1)]) n.attrs with hn2
  set C := (B ++ [N]).set selfId n2 with hC
  have hBlen : B.length = len + 1 := by
    rw [hB]
    simp only [List.length_set, List.length_append, List.length_singleton]
  have hCself : C[selfId]? = some n2 := by
    rw [hC]
    apply List.getElem?_set_eq_of_lt
    simp only [List.length_append, List.length_singleton, hBlen]
    omega
  have hClen : C[len]? = some N := by
    rw [hC, List.getElem?_set_ne hne,
      List.getElem?_append_left (by simp only [hBlen]; omega)]
    exact hget1
  have hClen1 : C[len + 1]? = some N := by
    rw [hC, List.getElem?_set_ne hne1,
      List.getElem?_append_right (by simp only [hBlen]; omega)]
    simp only [hBlen]
    simp
  refine ⟨rfl, hget1, hb1self, rfl, Nat.succ_ne_self _, ?_, ?_, ?_, ?_⟩
  · rw [hCself, hn2]
    simp
  · exact hClen
  · exact hClen1
  · intro args kwargs
    constructor
    · simp only [arena_call, hClen]
      rw [List.getElem?_set_ne (by omega)]
      exact hClen1
    · simp only [arena_call, hClen1]
      rw [List.getElem?_set_ne (by omega)]
      exact hClen

/-- C3 witness: two accesses of `"foo"` on the root of a fresh document. -/
theorem C3_getattr_no_memoization_witness :
    (node_getattr rootOnlyDoc 0 "foo").2 = Except.ok 1 ∧
    ((node_getattr (node_getattr rootOnlyDoc 0 "foo").1 0 "foo").1.nodes)[0]? =
      some (XMLNode.mk "root" [PyVal.nodeRef 1, PyVal.nodeRef 2] []) :=
  ⟨(C3_getattr_no_memoization rootOnlyDoc 0 "foo" (XMLNode.mk "root" [] [])
      (by decide) rfl).1,
   by
    have h := (C3_getattr_no_memoization rootOnlyDoc 0 "foo"
      (XMLNode.mk "root" [] []) (by decide) rfl).2.2.2.2.2.1
    simpa using h⟩

/-- Lookup after a single dict assignment. -/
theorem dict_get?_set_eq (d : List (PyVal × PyVal)) (k v q : PyVal) :
    dict_get? (dict_set d k v) q = if k = q then some v else dict_get? d q := by
  induction d with
  | nil => simp [dict_set, dict_get?]
  | cons kv rest ih =>
    obtain ⟨k', v'⟩ := kv
    by_cases h : k' = k
    · subst h
      by_cases hq : k' = q
      · subst hq
        simp [dict_set, dict_get?]
      · simp [dict_set, dict_get?, hq]
    · by_cases hq : k' = q
      · subst hq
        have hkq : ¬ k = k' := fun hh => h hh.symm
        simp [dict_set, dict_get?, h, hkq]
      · simp [dict_set, dict_get?, h, hq, ih]

/-- Lookup after a dict update: the last value written for the key wins,
falling back to the original dict. -/
theorem dict_get?_update (kvs : List (PyVal × PyVal))
    (d : List (PyVal × PyVal)) (q : PyVal) :
    dict_get? (dict_update d kvs) q =
      match last_value? kvs q with
      | some w => some w
      | none => dict_get? d q := by
  induction kvs generalizing d with
  | nil => simp [dict_update, last_value?]
  | cons kv rest ih =>
    obtain ⟨k, v⟩ := kv
    have hstep : dict_update d ((k, v) :: rest) =
        dict_update (dict_set d k v) rest := rfl
    rw [hstep, ih]
    cases hlast : last_value? rest q with
    | some w => simp [last_value?, hlast]
    | none =>
      rw [dict_get?_set_eq]
      by_cases hk : k = q <;> simp [last_value?, hlast, hk]

/-- C4: constructing a node from valid positional children and string-valued
attributes succeeds, stores exactly the given children in order and the
last-write-wins merge of the keyword pairs, and rendering it emits one start
event with the tag and merged attributes, then the children's events in
order — a data event per string child, a full recursive render per node
child — then one end event with the tag. -/
theorem C4_construct_then_render (tag : String) (args : List PyVal)
    (kwargs : List (PyVal × PyVal)) (nodes : List XMLNode) (fuel : Nat)
    (hargs : ∀ a ∈ args, isStrOrNode a = true)
    (hkw : ∀ kv ∈ kwargs, isStr kv.1 = true ∧ isStr kv.2 = true) :
    (xmlnode_init tag args kwargs).2 = none ∧
    (xmlnode_init tag args kwargs).1 =
      XMLNode.mk tag args (dict_update [] kwargs) ∧
    node_toxml fuel nodes (xmlnode_init tag args kwargs).1 =
      (childs_toxml fuel nodes args).map
        (fun evs =>
          Event.start tag (dict_update [] kwargs) :: (evs ++ [Event.close tag])) ∧
    (∀ q, dict_get? (dict_update [] kwargs) q = last_value? kwargs q) ∧
    (∀ f s rest, childs_toxml f nodes (PyVal.str s :: rest) =
      (childs_toxml f nodes rest).map (fun r => Event.data s :: r)) ∧
    (∀ f id rest child, nodes[id]? = some child →
      childs_toxml (f + 1) nodes (PyVal.nodeRef id :: rest) =
        (node_toxml f nodes child).bind
          (fun evs => (childs_toxml (f + 1) nodes rest).map (fun r => evs ++ r))) := by
  have hva : validate_args args = none := (validate_args_eq_none_iff args).mpr hargs
  have hvk : validate_kwargs kwargs = none := validate_kwargs_eq_none kwargs hkw
  have hinit : xmlnode_init tag args kwargs =
      (XMLNode.mk tag args (dict_update [] kwargs), none) := by
    simp [xmlnode_init, xml_update, hva, hvk]
  refine ⟨by rw [hinit], by rw [hinit], ?_, ?_, ?_, ?_⟩
  · rw [hinit]
    rfl
  · intro q
    rw [dict_get?_update]
    cases hl : last_value? kwargs q <;> simp [dict_get?]
  · intro f s rest
    simp [childs_toxml]
  · intro f id rest child hchild
    cases h1 : childs_toxml f nodes child.childs <;>
      cases h2 : childs_toxml (f + 1) nodes rest <;>
        simp [childs_toxml, node_toxml, hchild, h1, h2]

/-- C4 witness: the spec's concrete scenario,
`greeting("text content", lang="en")`. -/
theorem C4_construct_then_render_witness :
    (xmlnode_init "greeting" [PyVal.str "text content"]
        [(PyVal.str "lang", PyVal.str "en")]).2 = none ∧
    (xmlnode_init "greeting" [PyVal.str "text content"]
        [(PyVal.str "lang", PyVal.str "en")]).1 =
      XMLNode.mk "greeting" [PyVal.str "text content"]
        [(PyVal.str "lang", PyVal.str "en")] :=
  ⟨(C4_construct_then_render "greeting" [PyVal.str "text content"]
      [(PyVal.str "lang", PyVal.str "en")] [] 1 (by decide) (by decide)).1,
   by
    have h := (C4_construct_then_render "greeting" [PyVal.str "text content"]
      [(PyVal.str "lang", PyVal.str "en")] [] 1 (by decide) (by decide)).2.1
    rw [h]
    rfl⟩
